import Mathlib

/-!
# QueryVault — verification of the staging-buffer and pipeline spec

Shallow embedding of the QueryVault telemetry service (Rust) into Lean 4.
Each definition is translated from the named source file.  Uuids are
modelled as `Nat`, UTC instants as `Int` (epoch), `u64`/`usize` as `Nat`,
`i64` as `Int`, and `f64` statistics as `ℚ` (exact arithmetic in place of
IEEE doubles; all claims below concern the algorithmic relations between
these quantities, not rounding behaviour).
-/

set_option maxRecDepth 4000

namespace QueryVault

/-! ## Data model — src/src/models.rs -/

/-- `QueryStatus` from src/src/models.rs. -/
inductive QueryStatus where
  | Running
  | Success
  | Failed
  | Cancelled
  | Timeout
deriving DecidableEq

/-- `QueryMetric` from src/src/models.rs.  `id`, `workspace_id`,
`service_id` are Uuids (modelled as `Nat`); `duration_ms : u64` is a
`Nat`; timestamps are `Int` epoch instants. -/
structure QueryMetric where
  id : Nat
  workspace_id : Nat
  service_id : Nat
  query_text : String
  status : QueryStatus
  duration_ms : Nat
  rows_affected : Option Int
  error_message : Option String
  started_at : Int
  completed_at : Int
  tags : List String
deriving DecidableEq

/-- `IngestResponse` from src/src/models.rs. -/
structure IngestResponse where
  ingested : Nat
  dropped : Nat
deriving DecidableEq

/-! ## Staging buffer — src/src/buffer.rs

`MetricsBuffer` wraps a crossbeam `ArrayQueue` (bounded MPMC FIFO).
The queue is modelled as the list of its elements in FIFO order (head =
oldest).  `ArrayQueue::push` succeeds exactly when the queue is not full;
`ArrayQueue::pop` removes the oldest element. -/

/-- `MetricsBuffer` from src/src/buffer.rs: a bounded FIFO queue plus its
recorded capacity. -/
structure MetricsBuffer where
  queue : List QueryMetric
  capacity : Nat
deriving DecidableEq

/-- `MetricsBuffer::new` from src/src/buffer.rs. -/
def MetricsBuffer.new (capacity : Nat) : MetricsBuffer :=
  ⟨[], capacity⟩

/-- Result of `try_push`: `Ok(())` or `Err(metric)` (the rejected metric
is handed back to the caller). -/
inductive PushResult where
  | accepted
  | rejected (m : QueryMetric)
deriving DecidableEq

/-- `MetricsBuffer::try_push` from src/src/buffer.rs: the underlying
`ArrayQueue::push` appends when the queue is below capacity and returns
the metric to the caller otherwise. -/
def MetricsBuffer.try_push (b : MetricsBuffer) (m : QueryMetric) :
    MetricsBuffer × PushResult :=
  if b.queue.length < b.capacity then
    (⟨b.queue ++ [m], b.capacity⟩, .accepted)
  else
    (b, .rejected m)

/-- `MetricsBuffer::pop_batch` from src/src/buffer.rs: a loop of `max`
iterations, each popping the oldest element, stopping early when the
queue is empty.  Returns the updated buffer and the batch in pop order. -/
def MetricsBuffer.pop_batch (b : MetricsBuffer) (max : Nat) :
    MetricsBuffer × List QueryMetric :=
  match max, b.queue with
  | 0, _ => (b, [])
  | _ + 1, [] => (b, [])
  | n + 1, m :: rest =>
      let r := MetricsBuffer.pop_batch ⟨rest, b.capacity⟩ n
      (r.1, m :: r.2)

/-- `MetricsBuffer::len` from src/src/buffer.rs. -/
def MetricsBuffer.len (b : MetricsBuffer) : Nat :=
  b.queue.length

/-- One buffer operation, for stating the all-interleavings invariant. -/
inductive BufferOp where
  | push (m : QueryMetric)
  | pop (max : Nat)

/-- Apply one operation to the buffer (state component only). -/
def applyOp (b : MetricsBuffer) : BufferOp → MetricsBuffer
  | .push m => (b.try_push m).1
  | .pop n => (b.pop_batch n).1

/-- Run a sequence of buffer operations from a starting state. -/
def runOps (b : MetricsBuffer) (ops : List BufferOp) : MetricsBuffer :=
  ops.foldl applyOp b

/-! ### Buffer lemmas -/

theorem pop_batch_spec_mk (max : Nat) (q : List QueryMetric) (c : Nat) :
    (MetricsBuffer.mk q c).pop_batch max = (⟨q.drop max, c⟩, q.take max) := by
  induction max generalizing q with
  | zero => simp [MetricsBuffer.pop_batch]
  | succ n ih =>
      cases q with
      | nil => simp [MetricsBuffer.pop_batch]
      | cons m rest => simp [MetricsBuffer.pop_batch, ih]

theorem pop_batch_spec (max : Nat) (b : MetricsBuffer) :
    b.pop_batch max = (⟨b.queue.drop max, b.capacity⟩, b.queue.take max) := by
  cases b
  exact pop_batch_spec_mk max _ _

theorem try_push_fst_length (b : MetricsBuffer) (m : QueryMetric) :
    (b.try_push m).1.queue.length ≤ max b.queue.length b.capacity := by
  unfold MetricsBuffer.try_push
  split
  · simp; omega
  · simp

theorem try_push_fst_capacity (b : MetricsBuffer) (m : QueryMetric) :
    (b.try_push m).1.capacity = b.capacity := by
  unfold MetricsBuffer.try_push
  split <;> simp

theorem applyOp_capacity (b : MetricsBuffer) (op : BufferOp) :
    (applyOp b op).capacity = b.capacity := by
  cases op with
  | push m => exact try_push_fst_capacity b m
  | pop n => simp [applyOp, pop_batch_spec]

theorem applyOp_length (b : MetricsBuffer) (op : BufferOp)
    (h : b.queue.length ≤ b.capacity) :
    (applyOp b op).queue.length ≤ b.capacity := by
  cases op with
  | push m =>
      have := try_push_fst_length b m
      simp [applyOp]
      omega
  | pop n =>
      simp [applyOp, pop_batch_spec]
      omega

theorem try_push_rejected_iff (b : MetricsBuffer) (x : QueryMetric)
    (h : b.queue.length ≤ b.capacity) :
    (b.try_push x).2 = PushResult.rejected x ↔ b.queue.length = b.capacity := by
  unfold MetricsBuffer.try_push
  split <;> simp <;> omega

theorem try_push_accepted_iff (b : MetricsBuffer) (x : QueryMetric) :
    (b.try_push x).2 = PushResult.accepted ↔ b.queue.length < b.capacity := by
  unfold MetricsBuffer.try_push
  split <;> simp <;> omega

theorem runOps_invariant (ops : List BufferOp) (b : MetricsBuffer)
    (h : b.queue.length ≤ b.capacity) :
    (runOps b ops).queue.length ≤ (runOps b ops).capacity ∧
      (runOps b ops).capacity = b.capacity := by
  induction ops generalizing b with
  | nil => exact ⟨h, rfl⟩
  | cons op rest ih =>
      have hcap := applyOp_capacity b op
      have hlen := applyOp_length b op h
      have := ih (applyOp b op) (by rw [hcap]; exact hlen)
      simpa [runOps, hcap] using this

/-! ### C5 and C6 -/

/-- **C5.**  For every sequence of `try_push` / `pop_batch` operations on
a `MetricsBuffer` created with capacity `c`, the length never exceeds
`c = capacity()`, and at any reachable state `try_push x` returns
`rejected(x)` exactly when `len() = c`, and `accepted` otherwise. -/
theorem C5_buffer_bound (c : Nat) (ops : List BufferOp) (x : QueryMetric) :
    (runOps (MetricsBuffer.new c) ops).queue.length ≤ c ∧
    (runOps (MetricsBuffer.new c) ops).capacity = c ∧
    (((runOps (MetricsBuffer.new c) ops).try_push x).2 = .rejected x ↔
      (runOps (MetricsBuffer.new c) ops).queue.length = c) ∧
    (((runOps (MetricsBuffer.new c) ops).try_push x).2 = .accepted ↔
      (runOps (MetricsBuffer.new c) ops).queue.length < c) := by
  obtain ⟨hlen, hcap⟩ :=
    runOps_invariant ops (MetricsBuffer.new c) (by simp [MetricsBuffer.new])
  rw [show (MetricsBuffer.new c).capacity = c from rfl] at hcap
  refine ⟨by omega, hcap, ?_, ?_⟩
  · rw [try_push_rejected_iff _ _ hlen, hcap]
  · rw [try_push_accepted_iff, hcap]

/-- **C6.**  `pop_batch max` returns exactly `min max n` events (where
`n` is the number buffered), in insertion (FIFO) order — the first
`max` elements of the queue — and removes exactly those events, leaving
the rest in order. -/
theorem C6_pop_batch_fifo (b : MetricsBuffer) (max : Nat) :
    (b.pop_batch max).2 = b.queue.take max ∧
    (b.pop_batch max).1.queue = b.queue.drop max ∧
    (b.pop_batch max).1.capacity = b.capacity ∧
    (b.pop_batch max).2.length = min max b.queue.length ∧
    (b.pop_batch max).2 ++ (b.pop_batch max).1.queue = b.queue := by
  rw [pop_batch_spec]
  refine ⟨rfl, rfl, rfl, ?_, ?_⟩
  · simp
  · simp

/-! ## Errors — src/src/error.rs -/

/-- `AppError` from src/src/error.rs.  `Unauthorized` maps to HTTP 401,
`InvalidRequest` to 400, `DatabaseError` and `InternalError` to 500,
`NotFound` to 404. -/
inductive AppError where
  | DatabaseError (msg : String)
  | Unauthorized (msg : String)
  | InvalidRequest (msg : String)
  | InternalError (msg : String)
  | NotFound (msg : String)
deriving DecidableEq

/-! ## Ingest endpoint — src/src/routes/ingest.rs and src/src/state.rs

Headers are modelled by the value of the `Authorization` header, if
present (`Option String`); nothing else of the header map is consulted.
The Phase-1 `Database` of src/src/state.rs is an in-memory map from API
key to workspace id, modelled as an association list. -/

/-- `extract_bearer_token` from src/src/routes/ingest.rs:
`headers.get("Authorization")` then the `Bearer ` prefix is stripped
(`None` when the value does not start with it).  Stated on the character
lists underlying the strings. -/
def extract_bearer_token (auth_header : Option String) : Option String :=
  auth_header.bind fun v =>
    if List.isPrefixOf "Bearer ".toList v.toList then
      some (String.mk (v.toList.drop 7))
    else none

/-- `Database::verify_api_key` from src/src/state.rs: a lookup in the
API-key map, `None` for an unknown key. -/
def verify_api_key (api_keys : List (String × Nat)) (api_key : String) :
    Option Nat :=
  (api_keys.find? fun p => p.1 == api_key).map fun p => p.2

/-- The `for metric in payload.metrics` loop of `ingest_metrics`
(src/src/routes/ingest.rs lines 47-54): push each metric in order,
counting accepted pushes as `ingested` and rejected ones as `dropped`.
Returns (buffer, ingested, dropped). -/
def ingest_loop (b : MetricsBuffer) :
    List QueryMetric → MetricsBuffer × Nat × Nat
  | [] => (b, 0, 0)
  | m :: rest =>
      match b.try_push m with
      | (b2, PushResult.accepted) =>
          let r := ingest_loop b2 rest
          (r.1, r.2.1 + 1, r.2.2)
      | (b2, PushResult.rejected _) =>
          let r := ingest_loop b2 rest
          (r.1, r.2.1, r.2.2 + 1)

/-- `ingest_metrics` from src/src/routes/ingest.rs: authenticate via the
Bearer token, then push every metric, returning HTTP 202 (the `Nat` in
the result) with the ingested/dropped counts.  The returned buffer is
the post-call buffer state. -/
def ingest_metrics (api_keys : List (String × Nat))
    (auth_header : Option String) (payload : List QueryMetric)
    (b : MetricsBuffer) :
    MetricsBuffer × Except AppError (Nat × IngestResponse) :=
  match extract_bearer_token auth_header with
  | none => (b, Except.error (AppError.Unauthorized "Missing Authorization header"))
  | some api_key =>
      match verify_api_key api_keys api_key with
      | none => (b, Except.error (AppError.Unauthorized "Invalid API key"))
      | some _workspace_id =>
          let r := ingest_loop b payload
          (r.1, Except.ok (202, ⟨r.2.1, r.2.2⟩))

theorem ingest_loop_sum (payload : List QueryMetric) (b : MetricsBuffer) :
    (ingest_loop b payload).2.1 + (ingest_loop b payload).2.2 =
      payload.length := by
  induction payload generalizing b with
  | nil => simp [ingest_loop]
  | cons m rest ih =>
      by_cases hfull : b.queue.length < b.capacity
      · simp only [ingest_loop, MetricsBuffer.try_push, if_pos hfull,
          List.length_cons]
        have := ih ⟨b.queue ++ [m], b.capacity⟩
        omega
      · simp only [ingest_loop, MetricsBuffer.try_push, if_neg hfull,
          List.length_cons]
        have := ih b
        omega

theorem ingest_loop_ingested (payload : List QueryMetric) (b : MetricsBuffer)
    (h : b.queue.length ≤ b.capacity) :
    (ingest_loop b payload).2.1 =
      min payload.length (b.capacity - b.queue.length) := by
  induction payload generalizing b with
  | nil => simp [ingest_loop]
  | cons m rest ih =>
      by_cases hfull : b.queue.length < b.capacity
      · simp only [ingest_loop, MetricsBuffer.try_push, if_pos hfull,
          List.length_cons]
        have := ih ⟨b.queue ++ [m], b.capacity⟩ (by simp; omega)
        simp only [List.length_append, List.length_cons,
          List.length_nil] at this
        omega
      · simp only [ingest_loop, MetricsBuffer.try_push, if_neg hfull,
          List.length_cons]
        have := ih b h
        omega

/-! ### C2 and C7 -/

/-- **C2.**  For every authorized ingest request (the Bearer token
resolves to a workspace), `ingest_metrics` returns HTTP 202 with a
response satisfying `ingested + dropped = |payload|`, regardless of
whether `dropped > 0`; moreover `ingested` is exactly the number of
accepted `try_push` calls, namely `min |payload| (capacity - len)`, so
`dropped` counts exactly the rejected pushes. -/
theorem C2_ingest_counting (api_keys : List (String × Nat))
    (auth_header : Option String) (payload : List QueryMetric)
    (b : MetricsBuffer) (k : String) (w : Nat)
    (hk : extract_bearer_token auth_header = some k)
    (hw : verify_api_key api_keys k = some w)
    (hwf : b.queue.length ≤ b.capacity) :
    ∃ r : IngestResponse,
      (ingest_metrics api_keys auth_header payload b).2 =
        Except.ok (202, r) ∧
      r.ingested + r.dropped = payload.length ∧
      r.ingested = min payload.length (b.capacity - b.queue.length) := by
  refine ⟨⟨(ingest_loop b payload).2.1, (ingest_loop b payload).2.2⟩, ?_, ?_, ?_⟩
  · simp [ingest_metrics, hk, hw]
  · exact ingest_loop_sum payload b
  · exact ingest_loop_ingested payload b hwf

/-- Concrete instance of C2: one metric ingested with the Phase-1 test
key into a fresh buffer of capacity 2 yields 202 with
`ingested = 1`, `dropped = 0`. -/
theorem C2_ingest_counting_witness :
    ∃ r : IngestResponse,
      (ingest_metrics [("test-api-key-12345", 1)]
          (some "Bearer test-api-key-12345")
          [⟨1, 1, 1, "SELECT 1", QueryStatus.Success, 10, none, none, 0, 0, []⟩]
          (MetricsBuffer.new 2)).2 = Except.ok (202, r) ∧
      r.ingested + r.dropped = 1 ∧
      r.ingested = min 1 (2 - 0) :=
  C2_ingest_counting [("test-api-key-12345", 1)]
    (some "Bearer test-api-key-12345")
    [⟨1, 1, 1, "SELECT 1", QueryStatus.Success, 10, none, none, 0, 0, []⟩]
    (MetricsBuffer.new 2) "test-api-key-12345" 1
    (by decide) (by decide) (by decide)

/-- **C7.**  `ingest_metrics` fails with 401 Unauthorized exactly when
the Bearer token is missing (no `Authorization: Bearer` header, message
"Missing Authorization header") or the API key is unknown (message
"Invalid API key"); in every error case the staging buffer is returned
unchanged, and no other error is possible. -/
theorem C7_unauthorized (api_keys : List (String × Nat))
    (auth_header : Option String) (payload : List QueryMetric)
    (b : MetricsBuffer) :
    (((ingest_metrics api_keys auth_header payload b).2 =
        Except.error (AppError.Unauthorized "Missing Authorization header") ∧
      (ingest_metrics api_keys auth_header payload b).1 = b) ↔
        extract_bearer_token auth_header = none) ∧
    (((ingest_metrics api_keys auth_header payload b).2 =
        Except.error (AppError.Unauthorized "Invalid API key") ∧
      (ingest_metrics api_keys auth_header payload b).1 = b) ↔
        ∃ k, extract_bearer_token auth_header = some k ∧
          verify_api_key api_keys k = none) ∧
    (∀ e, (ingest_metrics api_keys auth_header payload b).2 =
        Except.error e →
      (ingest_metrics api_keys auth_header payload b).1 = b ∧
        (e = AppError.Unauthorized "Missing Authorization header" ∨
         e = AppError.Unauthorized "Invalid API key")) := by
  cases hx : extract_bearer_token auth_header with
  | none => simp [ingest_metrics, hx]
  | some k =>
      cases hv : verify_api_key api_keys k with
      | none => simp [ingest_metrics, hx, hv]
      | some w => simp [ingest_metrics, hx, hv]

/-- Concrete instance of C7: with no Authorization header, ingest
returns the 401 "Missing Authorization header" error and leaves the
buffer untouched. -/
theorem C7_unauthorized_witness :
    (ingest_metrics [("test-api-key-12345", 1)] none []
        (MetricsBuffer.new 2)).2 =
      Except.error (AppError.Unauthorized "Missing Authorization header") ∧
    (ingest_metrics [("test-api-key-12345", 1)] none []
        (MetricsBuffer.new 2)).1 = MetricsBuffer.new 2 :=
  (C7_unauthorized [("test-api-key-12345", 1)] none []
    (MetricsBuffer.new 2)).1.mpr (by decide)

/-! ## Aggregations window allow-list — src/src/db.rs and
src/src/routes/aggregations.rs

The result type records which continuous-aggregate view the query would
read from; an `Except.error` value means the function returned before
issuing any database query (in `Database::get_aggregations` the view
match precedes the query construction and execution). -/

/-- The view-selection match of `Database::get_aggregations`
(src/src/db.rs lines 185-190): only `5s`, `1m`, `5m` select a view; any
other window fails with `InvalidRequest` before any query is built. -/
def get_aggregations_view (window : String) : Except AppError String :=
  if window = "5s" then Except.ok "metrics_5s"
  else if window = "1m" then Except.ok "metrics_1m"
  else if window = "5m" then Except.ok "metrics_5m"
  else Except.error (AppError.InvalidRequest ("Invalid window: " ++ window))

/-- The allow-list of `get_aggregations` in
src/src/routes/aggregations.rs (`valid_windows`). -/
def valid_windows : List String := ["5s", "1m", "5m"]

/-- The route handler `get_aggregations` from
src/src/routes/aggregations.rs: reject unknown windows, reject
`from >= to`, otherwise query the database (modelled by the view the
gateway selects).  Source messages contain quote characters that are
elided here. -/
def get_aggregations_route (window : String) (tFrom tTo : Int) :
    Except AppError String :=
  if window ∈ valid_windows then
    if tTo ≤ tFrom then
      Except.error (AppError.InvalidRequest "from must be before to")
    else get_aggregations_view window
  else
    Except.error (AppError.InvalidRequest
      ("Invalid window " ++ window ++ ". Valid options: 5s, 1m, 5m"))

/-- **C8.**  Every window string outside `{5s, 1m, 5m}` is rejected with
`InvalidRequest` both by the route handler and by the storage gateway,
which in particular never selects a view (issues no query) for it; the
three allow-listed strings select exactly their aggregate views. -/
theorem C8_window_allowlist (window : String) (tFrom tTo : Int)
    (h : window ∉ valid_windows) :
    (∃ msg, get_aggregations_route window tFrom tTo =
        Except.error (AppError.InvalidRequest msg)) ∧
    (∃ msg, get_aggregations_view window =
        Except.error (AppError.InvalidRequest msg)) ∧
    (∀ v, get_aggregations_view window ≠ Except.ok v) ∧
    get_aggregations_view "5s" = Except.ok "metrics_5s" ∧
    get_aggregations_view "1m" = Except.ok "metrics_1m" ∧
    get_aggregations_view "5m" = Except.ok "metrics_5m" := by
  have h5s : window ≠ "5s" := by intro hh; exact h (by simp [valid_windows, hh])
  have h1m : window ≠ "1m" := by intro hh; exact h (by simp [valid_windows, hh])
  have h5m : window ≠ "5m" := by intro hh; exact h (by simp [valid_windows, hh])
  refine ⟨⟨"Invalid window " ++ window ++ ". Valid options: 5s, 1m, 5m", ?_⟩,
    ⟨"Invalid window: " ++ window, ?_⟩, ?_, rfl, rfl, rfl⟩
  · simp [get_aggregations_route, h]
  · simp [get_aggregations_view, h5s, h1m, h5m]
  · intro v
    simp [get_aggregations_view, h5s, h1m, h5m]

/-- Concrete instance of C8 at the unknown window "10s". -/
theorem C8_window_allowlist_witness :
    (∃ msg, get_aggregations_route "10s" 0 1 =
        Except.error (AppError.InvalidRequest msg)) ∧
    (∃ msg, get_aggregations_view "10s" =
        Except.error (AppError.InvalidRequest msg)) ∧
    (∀ v, get_aggregations_view "10s" ≠ Except.ok v) ∧
    get_aggregations_view "5s" = Except.ok "metrics_5s" ∧
    get_aggregations_view "1m" = Except.ok "metrics_1m" ∧
    get_aggregations_view "5m" = Except.ok "metrics_5m" :=
  C8_window_allowlist "10s" 0 1 (by decide)

/-! ## Status encoding — src/src/db.rs lines 545-566 -/

/-- `status_to_string` from src/src/db.rs. -/
def status_to_string : QueryStatus → String
  | .Running => "running"
  | .Success => "success"
  | .Failed => "failed"
  | .Cancelled => "cancelled"
  | .Timeout => "timeout"

/-- `string_to_status` from src/src/db.rs: the five known encodings, and
a catch-all mapping every other string to `Failed`. -/
def string_to_status (s : String) : QueryStatus :=
  if s = "running" then .Running
  else if s = "success" then .Success
  else if s = "failed" then .Failed
  else if s = "cancelled" then .Cancelled
  else if s = "timeout" then .Timeout
  else .Failed

/-- **C10.**  The status encoding round-trips
(`string_to_status (status_to_string s) = s` for every status), and
`string_to_status` maps every string outside the five known encodings to
`Failed`. -/
theorem C10_status_roundtrip :
    (∀ s : QueryStatus, string_to_status (status_to_string s) = s) ∧
    (∀ str : String,
      str ∉ ["running", "success", "failed", "cancelled", "timeout"] →
      string_to_status str = QueryStatus.Failed) := by
  constructor
  · intro s
    cases s <;> rfl
  · intro str h
    simp only [List.mem_cons, List.not_mem_nil, or_false, not_or] at h
    obtain ⟨h1, h2, h3, h4, h5⟩ := h
    simp [string_to_status, h1, h2, h3, h4, h5]

/-- Concrete instance of C10: the round trip at `Running` and the
catch-all at an unknown encoding. -/
theorem C10_status_roundtrip_witness :
    string_to_status (status_to_string QueryStatus.Running) =
      QueryStatus.Running ∧
    string_to_status "aborted" = QueryStatus.Failed :=
  ⟨C10_status_roundtrip.1 QueryStatus.Running,
   C10_status_roundtrip.2 "aborted" (by decide)⟩

/-! ## The two buffer-draining workers — src/src/routes/ws.rs and
src/src/tasks/aggregation.rs

`broadcast_task` (ws.rs) pops batches of 1000 from the staging buffer on
a 100 ms tick and publishes `(workspace_id, metric)` on the live
broadcast channel.  `aggregation_task` (tasks/aggregation.rs) pops
batches of 10000 on a 5 s tick and batch-inserts them into storage.
The system state below tracks the buffer, the `query_metrics` table
contents, and the sequence of messages published on the channel; a run
is an arbitrary interleaving of the two tick bodies. -/

/-- Combined state of the staging buffer, durable storage and live
channel. -/
structure SystemState where
  buffer : MetricsBuffer
  storage : List QueryMetric
  channel : List (Nat × QueryMetric)
deriving DecidableEq

/-- `Database::insert_metrics_batch` from src/src/db.rs: each row is
inserted inside one transaction; in the model every row insert
succeeds, so the whole batch is appended. -/
def insert_metrics_batch (storage batch : List QueryMetric) :
    List QueryMetric :=
  storage ++ batch

/-- One tick body of `broadcast_task` (src/src/routes/ws.rs lines
96-113): `pop_batch(1000)` then send every `(workspace_id, metric)` on
the broadcast channel. -/
def broadcast_tick (s : SystemState) : SystemState :=
  let r := s.buffer.pop_batch 1000
  ⟨r.1, s.storage, s.channel ++ r.2.map fun m => (m.workspace_id, m)⟩

/-- One tick body of `aggregation_task` (src/src/tasks/aggregation.rs
lines 18-52): `pop_batch(10000)` then `insert_metrics_batch`. -/
def aggregation_tick (s : SystemState) : SystemState :=
  let r := s.buffer.pop_batch 10000
  ⟨r.1, insert_metrics_batch s.storage r.2, s.channel⟩

/-- A scheduler step: either worker fires its tick. -/
inductive Tick where
  | broadcast
  | flush
deriving DecidableEq

/-- Apply one tick. -/
def apply_tick (s : SystemState) : Tick → SystemState
  | .broadcast => broadcast_tick s
  | .flush => aggregation_tick s

/-- Run an arbitrary interleaving of worker ticks. -/
def run_ticks (s : SystemState) (ticks : List Tick) : SystemState :=
  ticks.foldl apply_tick s

theorem run_ticks_empty_buffer (ticks : List Tick) (s : SystemState)
    (h : s.buffer.queue = []) :
    (run_ticks s ticks).storage = s.storage ∧
    (run_ticks s ticks).channel = s.channel ∧
    (run_ticks s ticks).buffer.queue = [] := by
  induction ticks generalizing s with
  | nil => exact ⟨rfl, rfl, h⟩
  | cons t rest ih =>
      have hstep : (apply_tick s t).storage = s.storage ∧
          (apply_tick s t).channel = s.channel ∧
          (apply_tick s t).buffer.queue = [] := by
        cases t with
        | broadcast =>
            simp [apply_tick, broadcast_tick, pop_batch_spec, h,
              insert_metrics_batch]
        | flush =>
            simp [apply_tick, aggregation_tick, pop_batch_spec, h,
              insert_metrics_batch]
      have := ih (apply_tick s t) hstep.2.2
      simp only [run_ticks, List.foldl_cons] at this ⊢
      exact ⟨this.1.trans hstep.1, this.2.1.trans hstep.2.1, this.2.2⟩

/-- **C1** is violated by the code: the two workers compete for the
staging buffer, so a popped event reaches exactly one sink, never both.
Starting from a buffer holding a single event `m0`: if the broadcast
tick fires first, `m0` is popped by the broadcast worker and published
on the live channel, but under every subsequent interleaving of worker
ticks the storage stays empty forever; symmetrically, if the flush tick
fires first, `m0` is inserted into storage but is never published on
the live channel. -/
theorem C1_double_consumer (m0 : QueryMetric) (ticks : List Tick) :
    (((⟨⟨[m0], 100000⟩, [], []⟩ : SystemState).buffer.pop_batch 1000).2
        = [m0] ∧
      (m0.workspace_id, m0) ∈
        (broadcast_tick ⟨⟨[m0], 100000⟩, [], []⟩).channel ∧
      (run_ticks (broadcast_tick ⟨⟨[m0], 100000⟩, [], []⟩) ticks).storage
        = []) ∧
    (m0 ∈ (aggregation_tick ⟨⟨[m0], 100000⟩, [], []⟩).storage ∧
      (run_ticks (aggregation_tick ⟨⟨[m0], 100000⟩, [], []⟩) ticks).channel
        = []) := by
  have hb : (broadcast_tick ⟨⟨[m0], 100000⟩, [], []⟩ : SystemState) =
      ⟨⟨[], 100000⟩, [], [(m0.workspace_id, m0)]⟩ := by
    simp [broadcast_tick, pop_batch_spec]
  have hf : (aggregation_tick ⟨⟨[m0], 100000⟩, [], []⟩ : SystemState) =
      ⟨⟨[], 100000⟩, [m0], []⟩ := by
    simp [aggregation_tick, pop_batch_spec, insert_metrics_batch]
  refine ⟨⟨?_, ?_, ?_⟩, ?_, ?_⟩
  · simp [pop_batch_spec]
  · rw [hb]; simp
  · rw [hb, (run_ticks_empty_buffer ticks _ rfl).1]
  · rw [hf]; simp
  · rw [hf, (run_ticks_empty_buffer ticks _ rfl).2.1]

/-! ## Anomaly detection — src/src/tasks/anomaly_detection.rs and
src/src/db.rs

The statistics (`AVG`, `STDDEV`, `COUNT` over the most recent 1000
stored events of the workspace) are computed by the database engine
(`Database::get_metrics_stats`, an external collaborator per the spec)
and arrive as the `MetricsStats` input of the detector.  `f64`
arithmetic is modelled exactly over `ℚ`; the `as i64` cast of the
threshold is truncation toward zero (saturation at the `i64` bounds is
not modelled — all realistic values are in range). -/

/-- `MetricsStats` from src/src/db.rs. -/
structure MetricsStats where
  mean : ℚ
  stddev : ℚ
  count : Int
deriving DecidableEq

/-- `QueryAnomaly` from src/src/db.rs. -/
structure QueryAnomaly where
  workspace_id : Nat
  service_id : Nat
  metric_id : Nat
  query_text : String
  duration_ms : Int
  mean_duration_ms : Int
  stddev_duration_ms : Int
  z_score : ℚ
deriving DecidableEq

/-- Truncation toward zero, the behaviour of the Rust `as i64` cast on
an in-range `f64`. -/
def rat_trunc (q : ℚ) : Int :=
  if 0 ≤ q then ⌊q⌋ else -⌊-q⌋

theorem lt_rat_trunc_add_one (q : ℚ) : q < (rat_trunc q : ℚ) + 1 := by
  unfold rat_trunc
  split
  · exact Int.lt_floor_add_one q
  · have h := Int.floor_le (-q)
    have h2 : ((-⌊-q⌋ : Int) : ℚ) = -(⌊-q⌋ : ℚ) := by push_cast; ring
    rw [h2]
    linarith

/-- `Database::get_recent_metrics_for_anomaly` from src/src/db.rs lines
420-463: the events of the last 60 seconds whose `duration_ms` strictly
exceeds the threshold.  The 60 s window is reflected by the `events`
argument (the stored events of the window); the duration-descending
`ORDER BY` is dropped as irrelevant to the claims. -/
def get_recent_metrics_for_anomaly (events : List QueryMetric)
    (threshold_ms : Int) : List QueryMetric :=
  events.filter fun m => decide (threshold_ms < (m.duration_ms : Int))

/-- The `QueryAnomaly` record built for one slow metric in
`detect_anomalies_for_workspace` (src/src/tasks/anomaly_detection.rs
lines 98-110). -/
def mk_anomaly (stats : MetricsStats) (m : QueryMetric) : QueryAnomaly :=
  { workspace_id := m.workspace_id
    service_id := m.service_id
    metric_id := m.id
    query_text := m.query_text
    duration_ms := (m.duration_ms : Int)
    mean_duration_ms := rat_trunc stats.mean
    stddev_duration_ms := rat_trunc stats.stddev
    z_score := ((m.duration_ms : ℚ) - stats.mean) / stats.stddev }

/-- `detect_anomalies_for_workspace` from
src/src/tasks/anomaly_detection.rs lines 52-130: skip when fewer than
100 samples or the standard deviation is not positive; otherwise insert
one anomaly row per event above `threshold = mean + 3*stddev` truncated
to integer milliseconds.  The returned list is the rows passed to
`insert_anomaly`. -/
def detect_anomalies_for_workspace (stats : MetricsStats)
    (recent_events : List QueryMetric) : List QueryAnomaly :=
  if stats.count < 100 then []
  else if stats.stddev ≤ 0 then []
  else
    (get_recent_metrics_for_anomaly recent_events
      (rat_trunc (stats.mean + 3 * stats.stddev))).map (mk_anomaly stats)

/-- **C3.**  Every anomaly row the detector inserts satisfies
`z = (duration - mean)/stddev > 3` with `stddev > 0` and
`count >= 100`, and its source event has `duration_ms` strictly above
the integer-truncated threshold `mean + 3*stddev`. -/
theorem C3_anomaly_predicate (stats : MetricsStats)
    (events : List QueryMetric) (a : QueryAnomaly)
    (h : a ∈ detect_anomalies_for_workspace stats events) :
    100 ≤ stats.count ∧ 0 < stats.stddev ∧
    a.z_score = ((a.duration_ms : ℚ) - stats.mean) / stats.stddev ∧
    3 < a.z_score ∧
    rat_trunc (stats.mean + 3 * stats.stddev) < a.duration_ms := by
  by_cases h1 : stats.count < 100
  · simp [detect_anomalies_for_workspace, h1] at h
  by_cases h2 : stats.stddev ≤ 0
  · simp [detect_anomalies_for_workspace, h1, h2] at h
  have hσ : 0 < stats.stddev := lt_of_not_le h2
  simp only [detect_anomalies_for_workspace, if_neg h1, if_neg h2,
    List.mem_map] at h
  obtain ⟨m, hm, rfl⟩ := h
  simp only [get_recent_metrics_for_anomaly, List.mem_filter,
    decide_eq_true_eq] at hm
  obtain ⟨-, hlt⟩ := hm
  have hd : (rat_trunc (stats.mean + 3 * stats.stddev) : ℚ) + 1 ≤
      (m.duration_ms : ℚ) := by
    have : rat_trunc (stats.mean + 3 * stats.stddev) + 1 ≤
        (m.duration_ms : Int) := hlt
    exact_mod_cast this
  have hgt : stats.mean + 3 * stats.stddev < (m.duration_ms : ℚ) :=
    lt_of_lt_of_le (lt_rat_trunc_add_one _) hd
  refine ⟨le_of_not_lt h1, hσ, ?_, ?_, ?_⟩
  · simp [mk_anomaly]
  · show 3 < ((m.duration_ms : ℚ) - stats.mean) / stats.stddev
    rw [lt_div_iff₀ hσ]
    linarith
  · exact hlt

/-- Concrete instance of C3 (scenario 6 of the spec): mean 100,
stddev 10, count 1000, one 500 ms event: the inserted anomaly has
`z = 40 > 3`. -/
theorem C3_anomaly_predicate_witness :
    100 ≤ (⟨100, 10, 1000⟩ : MetricsStats).count ∧
    0 < (⟨100, 10, 1000⟩ : MetricsStats).stddev ∧
    (mk_anomaly ⟨100, 10, 1000⟩
        ⟨1, 1, 1, "SELECT 1", QueryStatus.Success, 500, none, none, 0, 0, []⟩).z_score =
      (((mk_anomaly ⟨100, 10, 1000⟩
        ⟨1, 1, 1, "SELECT 1", QueryStatus.Success, 500, none, none, 0, 0, []⟩).duration_ms : ℚ) -
          (⟨100, 10, 1000⟩ : MetricsStats).mean) /
        (⟨100, 10, 1000⟩ : MetricsStats).stddev ∧
    3 < (mk_anomaly ⟨100, 10, 1000⟩
        ⟨1, 1, 1, "SELECT 1", QueryStatus.Success, 500, none, none, 0, 0, []⟩).z_score ∧
    rat_trunc ((⟨100, 10, 1000⟩ : MetricsStats).mean +
        3 * (⟨100, 10, 1000⟩ : MetricsStats).stddev) <
      (mk_anomaly ⟨100, 10, 1000⟩
        ⟨1, 1, 1, "SELECT 1", QueryStatus.Success, 500, none, none, 0, 0, []⟩).duration_ms :=
  C3_anomaly_predicate ⟨100, 10, 1000⟩
    [⟨1, 1, 1, "SELECT 1", QueryStatus.Success, 500, none, none, 0, 0, []⟩]
    (mk_anomaly ⟨100, 10, 1000⟩
      ⟨1, 1, 1, "SELECT 1", QueryStatus.Success, 500, none, none, 0, 0, []⟩)
    (by
      simp only [detect_anomalies_for_workspace,
        get_recent_metrics_for_anomaly, List.mem_map]
      norm_num [rat_trunc, List.filter])

/-! ## WebSocket fan-out — src/src/routes/ws.rs

One subscriber connection: the send task of `handle_socket` receives
from the live channel and forwards exactly the metrics of its
workspace.  A received item is either a delivered `(workspace_id,
metric)` pair or a lag notification (`RecvError::Lagged`), on which the
loop continues; `RecvError::Closed` is terminal in a tokio broadcast
channel and is modelled as the end of the stream.  Forwarding a metric
stands for sending its JSON encoding as one WebSocket message. -/

/-- One item received from the live broadcast channel. -/
inductive RecvItem where
  | ok (workspace_id : Nat) (metric : QueryMetric)
  | lagged (count : Nat)
deriving DecidableEq

/-- The send-task loop of `handle_socket` (src/src/routes/ws.rs lines
36-67): forward metrics whose workspace matches, skip lag signals. -/
def send_loop (workspace_id : Nat) : List RecvItem → List QueryMetric
  | [] => []
  | RecvItem.ok wid m :: rest =>
      if wid = workspace_id then m :: send_loop workspace_id rest
      else send_loop workspace_id rest
  | RecvItem.lagged _ :: rest => send_loop workspace_id rest

/-- The workspace-`w` projection of a channel stream: the subsequence of
delivered events belonging to workspace `w`. -/
def workspace_events (workspace_id : Nat) (stream : List RecvItem) :
    List QueryMetric :=
  stream.filterMap fun it =>
    match it with
    | RecvItem.ok wid m => if wid = workspace_id then some m else none
    | RecvItem.lagged _ => none

theorem send_loop_eq_workspace_events (w : Nat) (s : List RecvItem) :
    send_loop w s = workspace_events w s := by
  induction s with
  | nil => rfl
  | cons it rest ih =>
      cases it with
      | ok wid m =>
          by_cases hw : wid = w <;>
            simp [send_loop, workspace_events, List.filterMap_cons, hw] <;>
            simpa [workspace_events] using ih
      | lagged n =>
          simp [send_loop, workspace_events, List.filterMap_cons]
          simpa [workspace_events] using ih

/-- **C9.**  A subscriber for workspace `w` forwards exactly the
channel events with `workspace_id = w`, in the order received; and the
delivered sequence depends only on that projection: two channel streams
agreeing on their workspace-`w` events produce identical outputs, so
events of other workspaces never influence the subscriber. -/
theorem C9_ws_filter (w : Nat) (stream s1 s2 : List RecvItem)
    (h : workspace_events w s1 = workspace_events w s2) :
    send_loop w stream = workspace_events w stream ∧
    send_loop w s1 = send_loop w s2 := by
  refine ⟨send_loop_eq_workspace_events w stream, ?_⟩
  rw [send_loop_eq_workspace_events, send_loop_eq_workspace_events, h]

/-- Concrete instance of C9 (scenario 5 of the spec): two streams that
agree on their workspace-1 events — one interleaves a workspace-2 event
and a lag signal — yield the same delivered sequence. -/
theorem C9_ws_filter_witness :
    send_loop 1
      [RecvItem.ok 1 ⟨1, 1, 1, "a", QueryStatus.Success, 1, none, none, 0, 0, []⟩,
       RecvItem.ok 2 ⟨2, 2, 2, "b", QueryStatus.Success, 2, none, none, 0, 0, []⟩,
       RecvItem.ok 1 ⟨3, 1, 1, "c", QueryStatus.Success, 3, none, none, 0, 0, []⟩] =
      workspace_events 1
        [RecvItem.ok 1 ⟨1, 1, 1, "a", QueryStatus.Success, 1, none, none, 0, 0, []⟩,
         RecvItem.ok 2 ⟨2, 2, 2, "b", QueryStatus.Success, 2, none, none, 0, 0, []⟩,
         RecvItem.ok 1 ⟨3, 1, 1, "c", QueryStatus.Success, 3, none, none, 0, 0, []⟩] ∧
    send_loop 1
      [RecvItem.ok 1 ⟨1, 1, 1, "a", QueryStatus.Success, 1, none, none, 0, 0, []⟩,
       RecvItem.ok 2 ⟨2, 2, 2, "b", QueryStatus.Success, 2, none, none, 0, 0, []⟩,
       RecvItem.ok 1 ⟨3, 1, 1, "c", QueryStatus.Success, 3, none, none, 0, 0, []⟩] =
    send_loop 1
      [RecvItem.lagged 7,
       RecvItem.ok 1 ⟨1, 1, 1, "a", QueryStatus.Success, 1, none, none, 0, 0, []⟩,
       RecvItem.ok 1 ⟨3, 1, 1, "c", QueryStatus.Success, 3, none, none, 0, 0, []⟩] :=
  C9_ws_filter 1
    [RecvItem.ok 1 ⟨1, 1, 1, "a", QueryStatus.Success, 1, none, none, 0, 0, []⟩,
     RecvItem.ok 2 ⟨2, 2, 2, "b", QueryStatus.Success, 2, none, none, 0, 0, []⟩,
     RecvItem.ok 1 ⟨3, 1, 1, "c", QueryStatus.Success, 3, none, none, 0, 0, []⟩]
    [RecvItem.ok 1 ⟨1, 1, 1, "a", QueryStatus.Success, 1, none, none, 0, 0, []⟩,
     RecvItem.ok 2 ⟨2, 2, 2, "b", QueryStatus.Success, 2, none, none, 0, 0, []⟩,
     RecvItem.ok 1 ⟨3, 1, 1, "c", QueryStatus.Success, 3, none, none, 0, 0, []⟩]
    [RecvItem.lagged 7,
     RecvItem.ok 1 ⟨1, 1, 1, "a", QueryStatus.Success, 1, none, none, 0, 0, []⟩,
     RecvItem.ok 1 ⟨3, 1, 1, "c", QueryStatus.Success, 3, none, none, 0, 0, []⟩]
    (by decide)

/-! ## Query hashing — src/src/services/embedding.rs and src/src/db.rs

Two components hash query texts.  The embedding service
(src/src/services/embedding.rs) normalizes with
`trim / to_lowercase / split_whitespace / join(" ")` and hashes with the
Rust standard `DefaultHasher` (SipHash-1-3 with zero keys; hashing a
`str` feeds its UTF-8 bytes followed by a `0xff` byte), formatting the
64-bit result with `{:016x}`.  The storage gateway
(`get_unembedded_queries` in src/src/db.rs) computes
`md5(lower(regexp_replace(trim(query_text), backslash-s+, single space,
g)))` inside SQL, a 128-bit MD5 digest as 32 hex characters.  Both hash
functions are implemented below bit-for-bit over the UTF-8 bytes;
character classes and case mapping are modelled at ASCII precision
(identical for both components on ASCII input). -/

/-- The ASCII whitespace class: the common restriction of the Rust
`char::is_whitespace` (Unicode White_Space) and the Postgres regex
class `[[:space:]]`. -/
def is_ascii_space (c : Char) : Bool :=
  c = ' ' || c = '\t' || c = '\n' || c = '\r' || c = '\x0b' || c = '\x0c'

/-- Rust `str::trim`: drop whitespace from both ends. -/
def trim_chars (l : List Char) : List Char :=
  ((l.dropWhile is_ascii_space).reverse.dropWhile is_ascii_space).reverse

/-- Rust `str::split_whitespace` (accumulator holds the current word in
reverse): maximal non-whitespace runs, empties skipped. -/
def split_whitespace_core : List Char → List Char → List (List Char)
  | cur, [] => if cur.isEmpty then [] else [cur.reverse]
  | cur, c :: rest =>
      if is_ascii_space c then
        if cur.isEmpty then split_whitespace_core [] rest
        else cur.reverse :: split_whitespace_core [] rest
      else split_whitespace_core (c :: cur) rest

/-- `Vec::join(" ")`: interpose single spaces between the words. -/
def intercalate_space : List (List Char) → List Char
  | [] => []
  | [w] => w
  | w :: ws => w ++ ' ' :: intercalate_space ws

/-- `normalize_query` from src/src/services/embedding.rs:
`query.trim().to_lowercase().split_whitespace().collect().join(" ")`. -/
def normalize_query (q : String) : String :=
  String.mk (intercalate_space
    (split_whitespace_core [] ((trim_chars q.toList).map Char.toLower)))

/-- UTF-8 encoding of one scalar value. -/
def utf8_char (c : Char) : List Nat :=
  let n := c.toNat
  if n < 0x80 then [n]
  else if n < 0x800 then [0xc0 + n / 64, 0x80 + n % 64]
  else if n < 0x10000 then
    [0xe0 + n / 4096, 0x80 + n / 64 % 64, 0x80 + n % 64]
  else
    [0xf0 + n / 262144, 0x80 + n / 4096 % 64, 0x80 + n / 64 % 64,
      0x80 + n % 64]

/-- UTF-8 bytes of a string. -/
def utf8_bytes (s : String) : List Nat :=
  s.toList.foldr (fun c acc => utf8_char c ++ acc) []

/-- 64-bit modular addition. -/
def add64 (a b : Nat) : Nat := (a + b) % 2 ^ 64

/-- 64-bit left rotation (operands below `2 ^ 64`, `r < 64`). -/
def rotl64 (x r : Nat) : Nat := x * 2 ^ r % 2 ^ 64 + x / 2 ^ (64 - r)

/-- The four 64-bit words of the SipHash internal state. -/
structure SipState where
  v0 : Nat
  v1 : Nat
  v2 : Nat
  v3 : Nat

/-- One SipRound (SipHash reference definition, as in the Rust standard
library SipHasher13). -/
def sip_round (s : SipState) : SipState :=
  let a0 := add64 s.v0 s.v1
  let a1 := rotl64 s.v1 13 ^^^ a0
  let a0 := rotl64 a0 32
  let a2 := add64 s.v2 s.v3
  let a3 := rotl64 s.v3 16 ^^^ a2
  let b0 := add64 a0 a3
  let b3 := rotl64 a3 21 ^^^ b0
  let b2 := add64 a2 a1
  let b1 := rotl64 a1 17 ^^^ b2
  ⟨b0, b1, rotl64 b2 32, b3⟩

/-- Little-endian word value of a byte list. -/
def le_word (bytes : List Nat) : Nat :=
  bytes.foldr (fun b acc => b + 256 * acc) 0

/-- The 64-bit message blocks of SipHash: full 8-byte little-endian
words, and a final block holding the remaining bytes plus the message
length mod 256 in the top byte. -/
def sip_blocks : List Nat → Nat → List Nat
  | b0 :: b1 :: b2 :: b3 :: b4 :: b5 :: b6 :: b7 :: rest, len =>
      le_word [b0, b1, b2, b3, b4, b5, b6, b7] :: sip_blocks rest len
  | rest, len => [le_word rest + len % 256 * 2 ^ 56]

/-- One SipHash-1-3 compression step (one SipRound per block). -/
def sip_compress (s : SipState) (m : Nat) : SipState :=
  let t := sip_round ⟨s.v0, s.v1, s.v2, s.v3 ^^^ m⟩
  ⟨t.v0 ^^^ m, t.v1, t.v2, t.v3⟩

/-- SipHash-1-3 of a byte message (1 compression round, 3 finalization
rounds), the algorithm of the Rust standard `DefaultHasher`. -/
def siphash13 (k0 k1 : Nat) (msg : List Nat) : Nat :=
  let s0 : SipState :=
    ⟨k0 ^^^ 0x736f6d6570736575, k1 ^^^ 0x646f72616e646f6d,
     k0 ^^^ 0x6c7967656e657261, k1 ^^^ 0x7465646279746573⟩
  let s1 := (sip_blocks msg msg.length).foldl sip_compress s0
  let s2 := sip_round (sip_round (sip_round
    ⟨s1.v0, s1.v1, s1.v2 ^^^ 0xff, s1.v3⟩))
  s2.v0 ^^^ s2.v1 ^^^ s2.v2 ^^^ s2.v3

/-- `DefaultHasher::new()` then `s.hash(&mut hasher)` then `finish()`:
SipHash-1-3 with zero keys over the UTF-8 bytes of `s` followed by the
`0xff` terminator that `Hash for str` writes. -/
def default_hasher_finish (s : String) : Nat :=
  siphash13 0 0 (utf8_bytes s ++ [0xff])

/-- One lowercase hexadecimal digit. -/
def hex_digit (n : Nat) : Char :=
  if n < 10 then Char.ofNat (48 + n) else Char.ofNat (87 + n)

/-- `format!("{:016x}", v)` for a `u64` value: exactly 16 lowercase hex
digits, zero-padded. -/
def fmt016x (n : Nat) : String :=
  String.mk ((List.range 16).map fun i => hex_digit (n / 16 ^ (15 - i) % 16))

/-- `query_hash` from src/src/services/embedding.rs: the normalized
query hashed with `DefaultHasher` and formatted as 16 hex digits. -/
def query_hash (q : String) : String :=
  fmt016x (default_hasher_finish (normalize_query q))

/-- Postgres `trim(text)`: drop space characters (only `0x20`) from
both ends. -/
def sql_trim_spaces (l : List Char) : List Char :=
  ((l.dropWhile (fun c => c == ' ')).reverse.dropWhile
    (fun c => c == ' ')).reverse

/-- Postgres `regexp_replace(text, backslash-s+, single space, g)`:
collapse every whitespace run to one space (the flag tracks whether the
previous character belonged to a run). -/
def sql_collapse_aux (prev_space : Bool) : List Char → List Char
  | [] => []
  | c :: rest =>
      if is_ascii_space c then
        if prev_space then sql_collapse_aux true rest
        else ' ' :: sql_collapse_aux true rest
      else c :: sql_collapse_aux false rest

/-- The SQL normalization of `get_unembedded_queries` in src/src/db.rs:
`lower(regexp_replace(trim(query_text), backslash-s+, single space,
g))`. -/
def sql_normalized (q : String) : String :=
  String.mk ((sql_collapse_aux false (sql_trim_spaces q.toList)).map
    Char.toLower)

/-- 32-bit left rotation. -/
def rotl32 (x r : Nat) : Nat := x * 2 ^ r % 2 ^ 32 + x / 2 ^ (32 - r)

/-- The MD5 sine-derived constant table (RFC 1321). -/
def md5_K : List Nat :=
  [0xd76aa478, 0xe8c7b756, 0x242070db, 0xc1bdceee,
   0xf57c0faf, 0x4787c62a, 0xa8304613, 0xfd469501,
   0x698098d8, 0x8b44f7af, 0xffff5bb1, 0x895cd7be,
   0x6b901122, 0xfd987193, 0xa679438e, 0x49b40821,
   0xf61e2562, 0xc040b340, 0x265e5a51, 0xe9b6c7aa,
   0xd62f105d, 0x02441453, 0xd8a1e681, 0xe7d3fbc8,
   0x21e1cde6, 0xc33707d6, 0xf4d50d87, 0x455a14ed,
   0xa9e3e905, 0xfcefa3f8, 0x676f02d9, 0x8d2a4c8a,
   0xfffa3942, 0x8771f681, 0x6d9d6122, 0xfde5380c,
   0xa4beea44, 0x4bdecfa9, 0xf6bb4b60, 0xbebfbc70,
   0x289b7ec6, 0xeaa127fa, 0xd4ef3085, 0x04881d05,
   0xd9d4d039, 0xe6db99e5, 0x1fa27cf8, 0xc4ac5665,
   0xf4292244, 0x432aff97, 0xab9423a7, 0xfc93a039,
   0x655b59c3, 0x8f0ccc92, 0xffeff47d, 0x85845dd1,
   0x6fa87e4f, 0xfe2ce6e0, 0xa3014314, 0x4e0811a1,
   0xf7537e82, 0xbd3af235, 0x2ad7d2bb, 0xeb86d391]

/-- The MD5 per-step rotation amounts (RFC 1321). -/
def md5_S : List Nat :=
  [7, 12, 17, 22, 7, 12, 17, 22, 7, 12, 17, 22, 7, 12, 17, 22,
   5, 9, 14, 20, 5, 9, 14, 20, 5, 9, 14, 20, 5, 9, 14, 20,
   4, 11, 16, 23, 4, 11, 16, 23, 4, 11, 16, 23, 4, 11, 16, 23,
   6, 10, 15, 21, 6, 10, 15, 21, 6, 10, 15, 21, 6, 10, 15, 21]

/-- The MD5 round functions F, G, H, I (32-bit complement realized as
xor with the all-ones mask). -/
def md5_f (b c d i : Nat) : Nat :=
  if i < 16 then b &&& c ||| (b ^^^ 0xffffffff) &&& d
  else if i < 32 then d &&& b ||| (d ^^^ 0xffffffff) &&& c
  else if i < 48 then b ^^^ c ^^^ d
  else c ^^^ (b ||| (d ^^^ 0xffffffff))

/-- The MD5 message-word index per step (RFC 1321). -/
def md5_g (i : Nat) : Nat :=
  if i < 16 then i
  else if i < 32 then (5 * i + 1) % 16
  else if i < 48 then (3 * i + 5) % 16
  else 7 * i % 16

/-- The four 32-bit words of the MD5 state. -/
structure MD5State where
  a : Nat
  b : Nat
  c : Nat
  d : Nat

/-- One of the 64 MD5 steps over a 16-word message block `M`. -/
def md5_step (M : List Nat) (s : MD5State) (i : Nat) : MD5State :=
  let f := (md5_f s.b s.c s.d i + s.a + md5_K.getD i 0 + M.getD (md5_g i) 0)
    % 2 ^ 32
  ⟨s.d, (s.b + rotl32 f (md5_S.getD i 0)) % 2 ^ 32, s.b, s.c⟩

/-- Process one 64-byte chunk: run the 64 steps and add the result into
the running state (mod `2 ^ 32`). -/
def md5_chunk (st : MD5State) (chunk : List Nat) : MD5State :=
  let M := (List.range 16).map fun j => le_word ((chunk.drop (4 * j)).take 4)
  let r := (List.range 64).foldl (md5_step M) st
  ⟨(st.a + r.a) % 2 ^ 32, (st.b + r.b) % 2 ^ 32, (st.c + r.c) % 2 ^ 32,
   (st.d + r.d) % 2 ^ 32⟩

/-- Little-endian byte decomposition of fixed width. -/
def le_bytes (w n : Nat) : List Nat :=
  (List.range w).map fun i => n / 256 ^ i % 256

/-- MD5 padding: a `0x80` byte, zeros to 56 mod 64, then the bit length
as a little-endian 64-bit value. -/
def md5_pad (msg : List Nat) : List Nat :=
  msg ++ 0x80 :: List.replicate ((119 - msg.length % 64) % 64) 0 ++
    le_bytes 8 (8 * msg.length % 2 ^ 64)

/-- Split into 64-byte chunks (fuel-driven; the fuel is the length). -/
def chunks64_go : Nat → List Nat → List (List Nat)
  | 0, _ => []
  | _, [] => []
  | fuel + 1, l => l.take 64 :: chunks64_go fuel (l.drop 64)

/-- Split a byte list into 64-byte chunks. -/
def chunks64 (l : List Nat) : List (List Nat) :=
  chunks64_go l.length l

/-- The 16 digest bytes of MD5 (RFC 1321): fold the chunks from the
standard initial state and serialize `a, b, c, d` little-endian. -/
def md5_bytes (msg : List Nat) : List Nat :=
  let st := (chunks64 (md5_pad msg)).foldl md5_chunk
    ⟨0x67452301, 0xefcdab89, 0x98badcfe, 0x10325476⟩
  le_bytes 4 st.a ++ le_bytes 4 st.b ++ le_bytes 4 st.c ++ le_bytes 4 st.d

/-- The Postgres `md5()` function: the digest as 32 lowercase hex
characters. -/
def md5_hex (msg : List Nat) : String :=
  String.mk ((md5_bytes msg).foldr
    (fun byte acc => hex_digit (byte / 16) :: hex_digit (byte % 16) :: acc)
    [])

/-- The full SQL hash expression of `get_unembedded_queries` in
src/src/db.rs:
`md5(lower(regexp_replace(trim(query_text), backslash-s+, single
space, g)))`. -/
def sql_query_hash (q : String) : String :=
  md5_hex (utf8_bytes (sql_normalized q))

/-- RFC 1321 test vector: the empty message. -/
theorem md5_empty_vector :
    md5_hex (utf8_bytes "") = "d41d8cd98f00b204e9800998ecf8427e" := by
  decide

/-- RFC 1321 test vector: "abc". -/
theorem md5_abc_vector :
    md5_hex (utf8_bytes "abc") = "900150983cd24fb0d6963f7d28e17f72" := by
  decide

/-! ### C4 length facts and theorems -/

theorem fmt016x_length (n : Nat) : (fmt016x n).length = 16 := by
  simp [fmt016x, String.length]

theorem le_bytes_length (w n : Nat) : (le_bytes w n).length = w := by
  simp [le_bytes]

theorem md5_bytes_length (msg : List Nat) : (md5_bytes msg).length = 16 := by
  simp [md5_bytes, le_bytes_length]

theorem md5_hex_length (msg : List Nat) : (md5_hex msg).length = 32 := by
  have key : ∀ l : List Nat,
      (l.foldr (fun byte acc =>
        hex_digit (byte / 16) :: hex_digit (byte % 16) :: acc) []).length =
        2 * l.length := by
    intro l
    induction l with
    | nil => simp
    | cons x xs ih => simp [ih]; omega
  simp [md5_hex, String.length, key, md5_bytes_length]

theorem query_hash_length (q : String) : (query_hash q).length = 16 :=
  fmt016x_length _

theorem sql_query_hash_length (q : String) :
    (sql_query_hash q).length = 32 :=
  md5_hex_length _

/-- **C4** fails on the code: the two components hash the same
(trivially identically-normalized) query text to different digests.
The embedding service produces a 16-hex-digit `DefaultHasher` value
while the SQL expression produces a 32-hex-digit MD5 value, so the two
digests differ already in length. -/
theorem C4_hash_mismatch_counterexample :
    query_hash "SELECT * FROM users" ≠
      sql_query_hash "SELECT * FROM users" := by
  intro h
  have h1 := query_hash_length "SELECT * FROM users"
  have h2 := sql_query_hash_length "SELECT * FROM users"
  rw [h] at h1
  omega

/-- **C4 (amended).**  Within each component the hash is a function of
the normalized text — texts with equal normalizations get equal hashes
from the embedding service, and texts with equal SQL normalizations get
equal hashes from the storage gateway — but the two components use
different digest algorithms (64-bit SipHash-1-3 as 16 hex digits versus
128-bit MD5 as 32 hex digits), so the cross-component digests are never
equal. -/
theorem C4_hash_per_component (q1 q2 : String)
    (h1 : normalize_query q1 = normalize_query q2)
    (h2 : sql_normalized q1 = sql_normalized q2) :
    query_hash q1 = query_hash q2 ∧
    sql_query_hash q1 = sql_query_hash q2 ∧
    query_hash q1 ≠ sql_query_hash q2 := by
  refine ⟨?_, ?_, ?_⟩
  · unfold query_hash
    rw [h1]
  · unfold sql_query_hash
    rw [h2]
  · intro h
    have e1 := query_hash_length q1
    have e2 := sql_query_hash_length q2
    rw [h] at e1
    omega

/-- Concrete instance of the amended C4 (scenario 7 of the spec): the
two formatting variants of the same query normalize identically in both
components, so each component hashes them identically — while the two
components never agree with each other. -/
theorem C4_hash_per_component_witness :
    query_hash "SELECT * FROM users" = query_hash "select  *  from USERS" ∧
    sql_query_hash "SELECT * FROM users" =
      sql_query_hash "select  *  from USERS" ∧
    query_hash "SELECT * FROM users" ≠
      sql_query_hash "select  *  from USERS" :=
  C4_hash_per_component "SELECT * FROM users" "select  *  from USERS"
    (by decide) (by decide)

end QueryVault
